import Mathlib

/-!
Shallow embedding of the recurrence projection engine of
`backend/app/models/recurring_rule.py`: the `RecurringRule` model's
`is_active`, `is_expired`, `calcular_proxima_execucao` and `pode_executar`
members, together with the Gregorian-calendar arithmetic they rely on
(Python `datetime.date` plus `dateutil.relativedelta`).

Machine conventions of the embedding:
* a Python `date` is a record of year/month/day naturals; Python's date
  comparison (by ordinal) is modelled through a lexicographic key;
* `relativedelta(days=n)` / `(weeks=n)` is iterated calendar successor;
* `relativedelta(months=n)` / `(years=n)` advances the month/year count and
  clamps the day to the length of the target month, as dateutil does;
* `date.replace(day=x)` raises `ValueError` when `x` is not a valid day of
  the month, and the code catches that and applies `relativedelta(day=31)`
  (clamp to the last day); the two paths together are `replaceDayOrClamp`;
* Python truthiness of the nullable integer columns (`max_execucoes`,
  `dia_do_mes`): `None` and `0` are falsy, every other integer is truthy;
* `date.today()` is an explicit `today` argument threaded into the members
  that consult it (`is_expired`, and `calcular_proxima_execucao` both via
  `is_expired` and as the default of `data_base`).
-/

namespace GF

/-- Gregorian leap-year rule, as in Python's `calendar.isleap`. -/
def isLeapYear (y : Nat) : Bool :=
  y % 4 == 0 && (y % 100 != 0 || y % 400 == 0)

/-- Number of days of month `m` (1-12) of year `y`; months outside 1-12 do
not arise in the engine and default to 31. -/
def daysInMonth (y m : Nat) : Nat :=
  if m = 2 then (if isLeapYear y then 29 else 28)
  else if m = 4 ∨ m = 6 ∨ m = 9 ∨ m = 11 then 30
  else 31

/-- Model of Python `datetime.date`. -/
structure Date where
  year : Nat
  month : Nat
  day : Nat
deriving DecidableEq, Repr

/-- Lexicographic key: for dates with `month ≤ 12` and `day ≤ 31` it orders
exactly as Python's date ordinal does. -/
def Date.key (d : Date) : Nat :=
  (d.year * 13 + d.month) * 32 + d.day

/-- Python `a < b` on dates. -/
def Date.lt (a b : Date) : Bool :=
  decide (a.key < b.key)

/-- A structurally well-formed date (what `datetime.date` guarantees). -/
def Date.valid (d : Date) : Prop :=
  1 ≤ d.month ∧ d.month ≤ 12 ∧ 1 ≤ d.day ∧ d.day ≤ daysInMonth d.year d.month

instance (d : Date) : Decidable d.valid := by
  unfold Date.valid; infer_instance

/-- Calendar successor of a date. -/
def Date.nextDay (d : Date) : Date :=
  if d.day < daysInMonth d.year d.month then
    { d with day := d.day + 1 }
  else if d.month < 12 then
    { year := d.year, month := d.month + 1, day := 1 }
  else
    { year := d.year + 1, month := 1, day := 1 }

/-- `d + relativedelta(days=n)`: n-fold calendar successor. -/
def Date.addDays (d : Date) (n : Nat) : Date :=
  match n with
  | 0 => d
  | k + 1 => d.nextDay.addDays k

/-- `d + relativedelta(months=n)`: advance the month count by `n`, clamping
the day to the length of the target month. -/
def Date.addMonths (d : Date) (n : Nat) : Date :=
  let t := d.year * 12 + (d.month - 1) + n
  { year := t / 12, month := t % 12 + 1,
    day := min d.day (daysInMonth (t / 12) (t % 12 + 1)) }

/-- `d + relativedelta(years=n)`: same month, day clamped when it does not
exist in the target year (Feb 29 in a non-leap year). -/
def Date.addYears (d : Date) (n : Nat) : Date :=
  { year := d.year + n, month := d.month,
    day := min d.day (daysInMonth (d.year + n) d.month) }

/-- `d.replace(day=dia)` with the engine's `ValueError` fallback
`d + relativedelta(day=31)` (clamp to the last day of the month). -/
def Date.replaceDayOrClamp (d : Date) (dia : Int) : Date :=
  if 1 ≤ dia ∧ dia ≤ (daysInMonth d.year d.month : Int) then
    { d with day := dia.toNat }
  else
    { d with day := daysInMonth d.year d.month }

/-- `RecurrenceFrequency` enum of the model. -/
inductive RecurrenceFrequency where
  | DAILY
  | WEEKLY
  | MONTHLY
  | QUARTERLY
  | YEARLY
deriving DecidableEq, Repr

/-- `RecurrenceStatus` enum of the model. -/
inductive RecurrenceStatus where
  | ACTIVE
  | PAUSED
  | COMPLETED
  | CANCELLED
deriving DecidableEq, Repr

/-- The fields of the `RecurringRule` model consulted by the projection
engine (`is_active`, `is_expired`, `calcular_proxima_execucao`,
`pode_executar`). -/
structure RecurringRule where
  frequencia : RecurrenceFrequency
  intervalo : Nat
  dia_do_mes : Option Int
  dias_da_semana : Option (List Nat)
  data_inicio : Date
  data_fim : Option Date
  status : RecurrenceStatus
  ativo : Bool
  total_execucoes : Nat
  max_execucoes : Option Nat
deriving DecidableEq, Repr

/-- `RecurringRule.is_active`: `self.ativo and self.status == ACTIVE`. -/
def RecurringRule.is_active (r : RecurringRule) : Bool :=
  r.ativo && r.status == RecurrenceStatus.ACTIVE

/-- `RecurringRule.is_expired`: end date passed as of `date.today()`, or
execution cap (truthy, hence nonzero) reached. -/
def RecurringRule.is_expired (r : RecurringRule) (today : Date) : Bool :=
  (match r.data_fim with
   | some fim => Date.lt fim today
   | none => false) ||
  (match r.max_execucoes with
   | some m => (m != 0) && decide (r.total_execucoes ≥ m)
   | none => false)

/-- `RecurringRule.calcular_proxima_execucao(data_base)`; `today` stands for
`date.today()`, consulted by the guard (via `is_expired`) and as the default
of `data_base`. -/
def RecurringRule.calcular_proxima_execucao (r : RecurringRule)
    (today : Date) (data_base : Option Date) : Option Date :=
  if !r.is_active || r.is_expired today then
    none
  else
    let base := data_base.getD today
    match r.frequencia with
    | RecurrenceFrequency.DAILY =>
        some (base.addDays r.intervalo)
    | RecurrenceFrequency.WEEKLY =>
        some (base.addDays (7 * r.intervalo))
    | RecurrenceFrequency.MONTHLY =>
        let next := base.addMonths r.intervalo
        some (match r.dia_do_mes with
              | some dia => if dia != 0 then next.replaceDayOrClamp dia else next
              | none => next)
    | RecurrenceFrequency.QUARTERLY =>
        some (base.addMonths (3 * r.intervalo))
    | RecurrenceFrequency.YEARLY =>
        some (base.addYears r.intervalo)

/-- `RecurringRule.pode_executar(data_execucao)`. -/
def RecurringRule.pode_executar (r : RecurringRule) (data_execucao : Date) : Bool :=
  if !r.is_active then false
  else if Date.lt data_execucao r.data_inicio then false
  else if (match r.data_fim with
           | some fim => Date.lt fim data_execucao
           | none => false) then false
  else if (match r.max_execucoes with
           | some m => (m != 0) && decide (r.total_execucoes ≥ m)
           | none => false) then false
  else true

/-! Arithmetic facts about the calendar model. -/

theorem daysInMonth_pos (y m : Nat) : 28 ≤ daysInMonth y m := by
  unfold daysInMonth; split_ifs <;> omega

theorem daysInMonth_le_31 (y m : Nat) : daysInMonth y m ≤ 31 := by
  unfold daysInMonth; split_ifs <;> omega

theorem key_lt_of_ym_lt {a b : Date}
    (hym : a.year * 13 + a.month < b.year * 13 + b.month)
    (hday : a.day ≤ 31) : a.key < b.key := by
  unfold Date.key; omega

theorem nextDay_valid {d : Date} (h : d.valid) : d.nextDay.valid := by
  obtain ⟨h1, h2, h3, h4⟩ := h
  have hp1 := daysInMonth_pos d.year (d.month + 1)
  have hp2 := daysInMonth_pos (d.year + 1) 1
  unfold Date.valid Date.nextDay
  split_ifs with hd hm <;> dsimp only <;> omega

theorem key_lt_nextDay {d : Date} (h : d.valid) : d.key < d.nextDay.key := by
  obtain ⟨h1, h2, h3, h4⟩ := h
  have h31 := daysInMonth_le_31 d.year d.month
  unfold Date.nextDay Date.key
  split_ifs with hd hm <;> dsimp only <;> omega

theorem addDays_valid {d : Date} (h : d.valid) (n : Nat) : (d.addDays n).valid := by
  induction n generalizing d with
  | zero => exact h
  | succ k ih => exact ih (nextDay_valid h)

theorem key_le_addDays {d : Date} (h : d.valid) (n : Nat) :
    d.key ≤ (d.addDays n).key := by
  induction n generalizing d with
  | zero => exact Nat.le_refl _
  | succ k ih =>
      exact Nat.le_trans (Nat.le_of_lt (key_lt_nextDay h)) (ih (nextDay_valid h))

theorem key_lt_addDays {d : Date} (h : d.valid) {n : Nat} (hn : 1 ≤ n) :
    d.key < (d.addDays n).key := by
  cases n with
  | zero => omega
  | succ k =>
      exact Nat.lt_of_lt_of_le (key_lt_nextDay h)
        (key_le_addDays (nextDay_valid h) k)

theorem addMonths_month_bounds (d : Date) (n : Nat) :
    1 ≤ (d.addMonths n).month ∧ (d.addMonths n).month ≤ 12 := by
  unfold Date.addMonths
  simp only []
  omega

theorem addMonths_ym_lt {d : Date} (h : d.valid) {n : Nat} (hn : 1 ≤ n) :
    d.year * 13 + d.month <
      (d.addMonths n).year * 13 + (d.addMonths n).month := by
  obtain ⟨h1, h2, h3, h4⟩ := h
  unfold Date.addMonths
  simp only []
  omega

theorem key_lt_addMonths {d : Date} (h : d.valid) {n : Nat} (hn : 1 ≤ n) :
    d.key < (d.addMonths n).key := by
  have h31 := daysInMonth_le_31 d.year d.month
  exact key_lt_of_ym_lt (addMonths_ym_lt h hn) (le_trans h.2.2.2 h31)

theorem key_lt_addYears {d : Date} (h : d.valid) {n : Nat} (hn : 1 ≤ n) :
    d.key < (d.addYears n).key := by
  have h31 := daysInMonth_le_31 d.year d.month
  refine key_lt_of_ym_lt ?_ (le_trans h.2.2.2 h31)
  unfold Date.addYears
  simp only []
  omega

theorem replaceDayOrClamp_ym (d : Date) (dia : Int) :
    (d.replaceDayOrClamp dia).year = d.year ∧
      (d.replaceDayOrClamp dia).month = d.month := by
  unfold Date.replaceDayOrClamp
  split_ifs <;> exact ⟨rfl, rfl⟩

/-! Sample rules used by the concrete witnesses and counterexamples. -/

/-- A plain active daily rule with no end date and no execution cap. -/
def baseRule : RecurringRule :=
  { frequencia := RecurrenceFrequency.DAILY, intervalo := 1,
    dia_do_mes := none, dias_da_semana := none,
    data_inicio := ⟨2024, 1, 1⟩, data_fim := none,
    status := RecurrenceStatus.ACTIVE, ativo := true,
    total_execucoes := 0, max_execucoes := none }

/-- Quarterly rule with a day-of-month anchor set. -/
def c1ruleQ : RecurringRule :=
  { baseRule with frequencia := RecurrenceFrequency.QUARTERLY,
                  dia_do_mes := some 15 }

/-- Quarterly rule without a day-of-month anchor. -/
def c1ruleQnd : RecurringRule :=
  { baseRule with frequencia := RecurrenceFrequency.QUARTERLY, intervalo := 2 }

/-- Active daily rule whose end date is 2024-01-10. -/
def c2rule : RecurringRule :=
  { baseRule with data_fim := some ⟨2024, 1, 10⟩ }

/-- A paused rule. -/
def pausedRule : RecurringRule :=
  { baseRule with status := RecurrenceStatus.PAUSED }

/-- Rule whose execution cap column holds the value 0. -/
def c3rule : RecurringRule :=
  { baseRule with total_execucoes := 5, max_execucoes := some 0 }

/-- C1: the claim is false as stated — the QUARTERLY branch never applies
`dia_do_mes`, so a QUARTERLY rule with a day-of-month anchor differs from
the otherwise-identical MONTHLY rule with triple interval: from 2024-01-31
the QUARTERLY rule yields 2024-04-30 while the MONTHLY equivalent yields
2024-04-15. -/
theorem c1_counterexample :
    c1ruleQ.calcular_proxima_execucao ⟨2024, 1, 31⟩ (some ⟨2024, 1, 31⟩) ≠
      RecurringRule.calcular_proxima_execucao
        { c1ruleQ with frequencia := RecurrenceFrequency.MONTHLY,
                       intervalo := 3 * c1ruleQ.intervalo }
        ⟨2024, 1, 31⟩ (some ⟨2024, 1, 31⟩) := by decide

/-- C1 (amended): for rules whose `dia_do_mes` is unset (or the falsy 0),
`calcular_proxima_execucao` on a QUARTERLY rule agrees with the
otherwise-identical MONTHLY rule whose interval is multiplied by 3; when
`dia_do_mes` is a nonzero value the two differ in general, because the
QUARTERLY branch ignores the day-of-month override. -/
theorem c1_quarterly_monthly_equiv (r : RecurringRule) (t : Date)
    (db : Option Date)
    (hf : r.frequencia = RecurrenceFrequency.QUARTERLY)
    (hd : r.dia_do_mes = none ∨ r.dia_do_mes = some 0) :
    r.calcular_proxima_execucao t db =
      RecurringRule.calcular_proxima_execucao
        { r with frequencia := RecurrenceFrequency.MONTHLY,
                 intervalo := 3 * r.intervalo } t db := by
  unfold RecurringRule.calcular_proxima_execucao RecurringRule.is_active
    RecurringRule.is_expired
  rcases hd with hd | hd <;> simp [hf, hd]

/-- C1 (witness): the amended equivalence instantiated on a concrete
quarterly rule with `intervalo = 2` and no day-of-month anchor. -/
theorem c1_witness :
    c1ruleQnd.calcular_proxima_execucao ⟨2024, 1, 15⟩ (some ⟨2024, 1, 15⟩) =
      RecurringRule.calcular_proxima_execucao
        { c1ruleQnd with frequencia := RecurrenceFrequency.MONTHLY,
                         intervalo := 3 * c1ruleQnd.intervalo }
        ⟨2024, 1, 15⟩ (some ⟨2024, 1, 15⟩) :=
  c1_quarterly_monthly_equiv c1ruleQnd ⟨2024, 1, 15⟩ (some ⟨2024, 1, 15⟩)
    rfl (Or.inl rfl)

/-- C2: the claim is false as stated — expiry is judged against
`date.today()`, not against the reference-date argument: with end date
2024-01-10 and reference date 2024-01-05 (which is before the end date, so
the rule is not expired as of the reference date), the call still returns
`None` when today is 2024-02-01, while the very same rule and reference
date yield a date when today is 2024-01-05. -/
theorem c2_counterexample :
    Date.lt ⟨2024, 1, 5⟩ ⟨2024, 1, 10⟩ = true ∧
    c2rule.is_active = true ∧
    c2rule.calcular_proxima_execucao ⟨2024, 2, 1⟩ (some ⟨2024, 1, 5⟩) = none ∧
    c2rule.calcular_proxima_execucao ⟨2024, 1, 5⟩ (some ⟨2024, 1, 5⟩) =
      some ⟨2024, 1, 6⟩ := by decide

/-- C2 (amended): `calcular_proxima_execucao` returns `None` exactly when
the rule is not operationally active or is expired as of the current date
`date.today()` — not as of the reference-date argument. -/
theorem c2_none_iff (r : RecurringRule) (t : Date) (db : Option Date) :
    r.calcular_proxima_execucao t db = none ↔
      (r.is_active = false ∨ r.is_expired t = true) := by
  unfold RecurringRule.calcular_proxima_execucao
  cases hA : r.is_active <;> cases hE : r.is_expired t <;> simp [hA, hE]
  cases hF : r.frequencia <;> simp [hF]

/-- C2 (witness): the amended characterisation instantiated on a paused
rule, whose next occurrence is `None`. -/
theorem c2_witness :
    pausedRule.calcular_proxima_execucao ⟨2024, 1, 1⟩ none = none :=
  (c2_none_iff pausedRule ⟨2024, 1, 1⟩ none).mpr (Or.inl (by decide))

/-- C3: the claim is false as stated — with `max_execucoes = 0` (set, not
unset) and `total_execucoes = 5 ≥ 0`, the Python truthiness test skips the
cap check and `pode_executar` returns true although the claim requires
false. -/
theorem c3_counterexample :
    c3rule.max_execucoes = some 0 ∧
    c3rule.total_execucoes = 5 ∧
    c3rule.is_active = true ∧
    Date.lt ⟨2024, 1, 5⟩ c3rule.data_inicio = false ∧
    c3rule.data_fim = none ∧
    c3rule.pode_executar ⟨2024, 1, 5⟩ = true := by decide

/-- C3 (amended): `pode_executar` returns true iff the rule is
operationally active, the candidate date is on or after the start date, the
end date is unset or not before the candidate date, and the execution cap
is unset **or zero** or not yet reached. -/
theorem c3_pode_executar_iff (r : RecurringRule) (d : Date) :
    r.pode_executar d = true ↔
      (r.is_active = true ∧
       Date.lt d r.data_inicio = false ∧
       (∀ fim, r.data_fim = some fim → Date.lt fim d = false) ∧
       (∀ m, r.max_execucoes = some m → m = 0 ∨ r.total_execucoes < m)) := by
  unfold RecurringRule.pode_executar
  cases hA : r.is_active <;> simp [hA]
  cases hI : Date.lt d r.data_inicio <;> simp [hI]
  rcases hF : r.data_fim with _ | fim <;> simp [hF]
  · rcases hM : r.max_execucoes with _ | m <;> simp [hM]
    omega
  · cases hL : Date.lt fim d <;> simp [hL]
    rcases hM : r.max_execucoes with _ | m <;> simp [hM]
    omega

/-- C4: for an operationally active, non-expired MONTHLY rule whose
`dia_do_mes` is a value between 1 and 31, the next occurrence sits in the
month reached by advancing the reference date by `intervalo` months, and
its day is `dia_do_mes` clamped down to the length of that month (never
rolling into the next month). -/
theorem c4_monthly_day_override (r : RecurringRule) (t base : Date)
    (dia : Int)
    (hA : r.is_active = true) (hE : r.is_expired t = false)
    (hf : r.frequencia = RecurrenceFrequency.MONTHLY)
    (hd : r.dia_do_mes = some dia) (h1 : 1 ≤ dia) (h31 : dia ≤ 31) :
    r.calcular_proxima_execucao t (some base) =
      some { year := (base.addMonths r.intervalo).year,
             month := (base.addMonths r.intervalo).month,
             day := min dia.toNat
               (daysInMonth (base.addMonths r.intervalo).year
                 (base.addMonths r.intervalo).month) } := by
  have hne : (dia != 0) = true := by
    simp only [bne_iff_ne, ne_eq]
    omega
  unfold RecurringRule.calcular_proxima_execucao
  simp [hA, hE, hf, hd, hne, Date.replaceDayOrClamp]
  split_ifs with h <;> simp [Date.mk.injEq] <;> omega

/-- C4 (witness): MONTHLY rule with `intervalo = 1` and `dia_do_mes = 31`
stepped from 2024-01-31 yields 2024-02-29. -/
theorem c4_witness :
    RecurringRule.calcular_proxima_execucao
      { baseRule with frequencia := RecurrenceFrequency.MONTHLY,
                      dia_do_mes := some 31 }
      ⟨2024, 1, 31⟩ (some ⟨2024, 1, 31⟩) = some ⟨2024, 2, 29⟩ := by
  have h := c4_monthly_day_override
    { baseRule with frequencia := RecurrenceFrequency.MONTHLY,
                    dia_do_mes := some 31 }
    ⟨2024, 1, 31⟩ ⟨2024, 1, 31⟩ 31
    (by decide) (by decide) rfl rfl (by decide) (by decide)
  rw [h]
  decide

/-- C5: for an operationally active, non-expired YEARLY rule, the next
occurrence advances the reference date by `intervalo` years keeping the
month, with the day clamped to the length of the target month (Feb 29
falls back to Feb 28 in a non-leap target year). -/
theorem c5_yearly (r : RecurringRule) (t base : Date)
    (hA : r.is_active = true) (hE : r.is_expired t = false)
    (hf : r.frequencia = RecurrenceFrequency.YEARLY) :
    r.calcular_proxima_execucao t (some base) =
      some { year := base.year + r.intervalo, month := base.month,
             day := min base.day
               (daysInMonth (base.year + r.intervalo) base.month) } := by
  unfold RecurringRule.calcular_proxima_execucao Date.addYears
  simp [hA, hE, hf]

/-- C5 (witness): YEARLY rule with `intervalo = 1` stepped from 2024-02-29
yields 2025-02-28. -/
theorem c5_witness :
    RecurringRule.calcular_proxima_execucao
      { baseRule with frequencia := RecurrenceFrequency.YEARLY }
      ⟨2024, 2, 29⟩ (some ⟨2024, 2, 29⟩) = some ⟨2025, 2, 28⟩ := by
  have h := c5_yearly
    { baseRule with frequencia := RecurrenceFrequency.YEARLY }
    ⟨2024, 2, 29⟩ ⟨2024, 2, 29⟩ (by decide) (by decide) rfl
  rw [h]
  decide

/-- C6: the claim is false as stated — the output does not depend only on
the rule snapshot and the reference-date argument: the end-date expiry
check reads `date.today()`, so two calls with the identical rule and the
identical reference date 2024-01-02 return different results when today is
2024-03-01 (after the end date) versus 2024-01-02. -/
theorem c6_counterexample :
    RecurringRule.calcular_proxima_execucao
        { baseRule with data_fim := some ⟨2024, 1, 20⟩ }
        ⟨2024, 3, 1⟩ (some ⟨2024, 1, 2⟩) ≠
      RecurringRule.calcular_proxima_execucao
        { baseRule with data_fim := some ⟨2024, 1, 20⟩ }
        ⟨2024, 1, 2⟩ (some ⟨2024, 1, 2⟩) := by decide

/-- C6 (amended): the computation is deterministic once the current date is
counted among the inputs — with a reference date supplied, the current date
influences the result only through the expiry check, so any two calls with
the same rule, the same reference date, and current dates on which
`is_expired` agrees return the same output. -/
theorem c6_deterministic_given_today (r : RecurringRule) (t1 t2 d : Date)
    (h : r.is_expired t1 = r.is_expired t2) :
    r.calcular_proxima_execucao t1 (some d) =
      r.calcular_proxima_execucao t2 (some d) := by
  unfold RecurringRule.calcular_proxima_execucao
  rw [h]
  simp only [Option.getD_some]

/-- C6 (witness): the amended determinism instantiated on the base rule,
reference date 2024-07-01 and the two current dates 2024-05-01 and
2024-09-09. -/
theorem c6_witness :
    baseRule.calcular_proxima_execucao ⟨2024, 5, 1⟩ (some ⟨2024, 7, 1⟩) =
      baseRule.calcular_proxima_execucao ⟨2024, 9, 9⟩ (some ⟨2024, 7, 1⟩) :=
  c6_deterministic_given_today baseRule ⟨2024, 5, 1⟩ ⟨2024, 9, 9⟩
    ⟨2024, 7, 1⟩ (by decide)

/-- C3 (witness): the amended characterisation instantiated on the base
rule and candidate date 2024-06-01. -/
theorem c3_witness : baseRule.pode_executar ⟨2024, 6, 1⟩ = true :=
  (c3_pode_executar_iff baseRule ⟨2024, 6, 1⟩).mpr
    ⟨by decide, by decide,
     fun fim h => Option.noConfusion h,
     fun m h => Option.noConfusion h⟩

/-- C7: for an operationally active, non-expired WEEKLY rule, the next
occurrence is exactly the reference date plus `7 * intervalo` days, and the
`dias_da_semana` field has no effect: replacing it by any value leaves the
result unchanged. -/
theorem c7_weekly (r : RecurringRule) (t d : Date)
    (hA : r.is_active = true) (hE : r.is_expired t = false)
    (hf : r.frequencia = RecurrenceFrequency.WEEKLY) :
    r.calcular_proxima_execucao t (some d) =
      some (d.addDays (7 * r.intervalo)) ∧
    ∀ ds : Option (List Nat),
      RecurringRule.calcular_proxima_execucao
          { r with dias_da_semana := ds } t (some d) =
        some (d.addDays (7 * r.intervalo)) := by
  constructor
  · unfold RecurringRule.calcular_proxima_execucao
    simp [hA, hE, hf]
  · intro ds
    unfold RecurringRule.calcular_proxima_execucao
    unfold RecurringRule.is_active at hA ⊢
    unfold RecurringRule.is_expired at hE ⊢
    simp [hA, hE, hf]

/-- C7 (witness): WEEKLY rule with `intervalo = 2` and selected weekdays
Monday and Wednesday, stepped from 2024-12-25: the result is plainly 14
days later, unconstrained by the weekday selection. -/
theorem c7_witness :
    RecurringRule.calcular_proxima_execucao
        { baseRule with frequencia := RecurrenceFrequency.WEEKLY,
                        intervalo := 2, dias_da_semana := some [1, 3] }
        ⟨2024, 12, 25⟩ (some ⟨2024, 12, 25⟩) =
      some (Date.addDays ⟨2024, 12, 25⟩ (7 * 2)) :=
  (c7_weekly
    { baseRule with frequencia := RecurrenceFrequency.WEEKLY,
                    intervalo := 2, dias_da_semana := some [1, 3] }
    ⟨2024, 12, 25⟩ ⟨2024, 12, 25⟩ (by decide) (by decide) rfl).1

/-- C8: for an operationally active, non-expired DAILY rule with
`intervalo = N`, the next occurrence from reference date `d` is exactly
`d + N` days. -/
theorem c8_daily (r : RecurringRule) (t d : Date)
    (hA : r.is_active = true) (hE : r.is_expired t = false)
    (hf : r.frequencia = RecurrenceFrequency.DAILY) :
    r.calcular_proxima_execucao t (some d) =
      some (d.addDays r.intervalo) := by
  unfold RecurringRule.calcular_proxima_execucao
  simp [hA, hE, hf]

/-- C8 (witness): the base daily rule stepped from 2024-02-27 yields
2024-02-28. -/
theorem c8_witness :
    baseRule.calcular_proxima_execucao ⟨2024, 2, 27⟩ (some ⟨2024, 2, 27⟩) =
      some ⟨2024, 2, 28⟩ := by
  have h := c8_daily baseRule ⟨2024, 2, 27⟩ ⟨2024, 2, 27⟩
    (by decide) (by decide) rfl
  rw [h]
  decide

/-- C9: a stored execution cap of 0 is treated exactly as an absent cap, in
both `pode_executar` and `is_expired`: replacing `max_execucoes = some 0`
by `none` changes neither verdict. -/
theorem c9_cap_zero (r : RecurringRule) (d t : Date)
    (h : r.max_execucoes = some 0) :
    r.pode_executar d =
      RecurringRule.pode_executar { r with max_execucoes := none } d ∧
    r.is_expired t =
      RecurringRule.is_expired { r with max_execucoes := none } t := by
  unfold RecurringRule.pode_executar RecurringRule.is_expired
    RecurringRule.is_active
  simp [h]

/-- C9 (witness): the cap-zero rule with 5 recorded executions behaves
exactly as its capless twin. -/
theorem c9_witness :
    c3rule.pode_executar ⟨2024, 1, 5⟩ =
      RecurringRule.pode_executar
        { c3rule with max_execucoes := none } ⟨2024, 1, 5⟩ ∧
    c3rule.is_expired ⟨2024, 1, 5⟩ =
      RecurringRule.is_expired
        { c3rule with max_execucoes := none } ⟨2024, 1, 5⟩ :=
  c9_cap_zero c3rule ⟨2024, 1, 5⟩ ⟨2024, 1, 5⟩ rfl

/-- C10: strict progress — whenever an operationally active, non-expired
rule with `intervalo ≥ 1` produces a next occurrence from a well-formed
reference date, that occurrence is strictly later than the reference date,
in every frequency branch (including MONTHLY with its day-of-month
override, which stays within the strictly later month). -/
theorem c10_strict_progress (r : RecurringRule) (t d res : Date)
    (hA : r.is_active = true) (hE : r.is_expired t = false)
    (hi : 1 ≤ r.intervalo) (hv : d.valid)
    (hres : r.calcular_proxima_execucao t (some d) = some res) :
    Date.lt d res = true := by
  unfold RecurringRule.calcular_proxima_execucao at hres
  simp [hA, hE] at hres
  suffices hk : d.key < res.key by
    simp [Date.lt, hk]
  cases hF : r.frequencia <;> simp [hF] at hres
  · subst hres
    exact key_lt_addDays hv hi
  · subst hres
    exact key_lt_addDays hv (by omega)
  · rcases hD : r.dia_do_mes with _ | dia <;> simp [hD] at hres
    · subst hres
      exact key_lt_addMonths hv hi
    · by_cases h0 : dia = 0 <;> simp [h0] at hres
      · subst hres
        exact key_lt_addMonths hv hi
      · subst hres
        have hy := replaceDayOrClamp_ym (d.addMonths r.intervalo) dia
        refine key_lt_of_ym_lt ?_
          (le_trans hv.2.2.2 (daysInMonth_le_31 _ _))
        rw [hy.1, hy.2]
        exact addMonths_ym_lt hv hi
  · subst hres
    exact key_lt_addMonths hv (by omega)
  · subst hres
    exact key_lt_addYears hv hi

/-- C10 (witness): the MONTHLY rule with `dia_do_mes = 31` stepped from
2024-01-31 lands on 2024-02-29, strictly later. -/
theorem c10_witness : Date.lt ⟨2024, 1, 31⟩ ⟨2024, 2, 29⟩ = true :=
  c10_strict_progress
    { baseRule with frequencia := RecurrenceFrequency.MONTHLY,
                    dia_do_mes := some 31 }
    ⟨2024, 1, 31⟩ ⟨2024, 1, 31⟩ ⟨2024, 2, 29⟩
    (by decide) (by decide) (by decide) (by decide) (by decide)

end GF
